import Mathlib

/-!
Shallow embedding of `src/analysis/load_spectra.py`: two tar-archive helper
utilities (`tar_wrapper_single`, `tar_wrapper_multiple`) and three loader
functions (`load_acetonitrile_spectra`, `load_cc124_tap_spectra`,
`load_chlamy_spectra`).  The external spectroscopy library (`ramanalysis`)
is out of scope for the repository, so its parser entry points are embedded
symbolically: a spectrum remembers which class-method parser produced it and
from which file path(s).
-/

namespace LoadSpectra

/-! ## Filesystem / archive model for the tar wrapper utilities -/

/-- Contents of an archived file, as an abstract byte list. -/
abbrev Content := List Nat

/-- A tar archive: an association of member names to member contents. -/
abbrev Tar := List (String × Content)

/-- Model of `tarfile.TarFile.extractfile(filename)`: look up a member by name.
`none` models the `KeyError` Python raises for a missing member. -/
def tarLookup : Tar → String → Option Content
  | [], _ => none
  | (n, c) :: rest, f => if n = f then some c else tarLookup rest f

/-- The temporary-file area visible to the wrappers.  `tempfile.NamedTemporaryFile`
allocates fresh names; we model names as the values of an allocation counter. -/
structure TmpFS where
  files : List (Nat × Content)
  counter : Nat
deriving DecidableEq

/-- Allocator invariant: every existing temp file carries an already-allocated
name, so a freshly allocated name never collides with an existing file. -/
def TmpFS.WF (fs : TmpFS) : Prop := ∀ p ∈ fs.files, p.1 < fs.counter

/-- Look a temp file up by name (first match wins). -/
def lookupTmp : List (Nat × Content) → Nat → Option Content
  | [], _ => none
  | (m, c) :: rest, n => if m = n then some c else lookupTmp rest n

/-- Read a temp file from the temp area. -/
def readTmp (fs : TmpFS) (n : Nat) : Option Content := lookupTmp fs.files n

/-- Model of `os.remove` / `delete=True` cleanup of one temp file. -/
def removeFile (n : Nat) (fs : TmpFS) : TmpFS :=
  ⟨fs.files.filter (fun p => p.1 ≠ n), fs.counter⟩

/-- Exceptions the wrappers can propagate. -/
inductive PyErr where
  /-- `tar.extractfile` raised `KeyError` for a missing member. -/
  | keyError (member : String)
  /-- `NameError`: a local variable was read before being bound. -/
  | nameError
  /-- An exception raised by the wrapped function itself. -/
  | userError (code : Nat)
deriving DecidableEq

/-- Model of `tar_wrapper_single(tarpath, filename, function, **kwargs)`:
extract one member to a fresh `NamedTemporaryFile` (with `delete=True`, so the
file disappears when the `with` block exits) and call `function` on the temp
file's name, forwarding the keyword arguments `kwargs`.  The wrapped function
is modelled as receiving the temp path, the keyword arguments and a view of
the temp area, and possibly raising (`Except.error`). -/
def tar_wrapper_single {α K : Type} (tarpath : Tar) (filename : String)
    (function : Nat → K → TmpFS → Except PyErr α) (kwargs : K) (fs : TmpFS) :
    Except PyErr α × TmpFS :=
  match tarLookup tarpath filename with
  | none => (Except.error (PyErr.keyError filename), fs)
  | some content =>
    let name := fs.counter
    let fs1 : TmpFS := ⟨(name, content) :: fs.files, fs.counter + 1⟩
    let out := function name kwargs fs1
    (out, removeFile name fs1)

/-- The extraction loop of `tar_wrapper_multiple`: extract each named member to
its own `NamedTemporaryFile(delete=False)`, accumulating the temp names in
order.  A missing member raises `KeyError` on the spot, leaving the temp files
already created in place. -/
def extractLoop (tar : Tar) : List String → TmpFS → List Nat →
    Except PyErr (List Nat) × TmpFS
  | [], fs, acc => (Except.ok acc, fs)
  | fn :: rest, fs, acc =>
    match tarLookup tar fn with
    | none => (Except.error (PyErr.keyError fn), fs)
    | some content =>
      extractLoop tar rest ⟨(fs.counter, content) :: fs.files, fs.counter + 1⟩
        (acc ++ [fs.counter])

/-- The `finally:` cleanup loop of `tar_wrapper_multiple`: `os.remove` each
temp file in turn. -/
def removeAllTmp : List Nat → TmpFS → TmpFS
  | [], fs => fs
  | n :: ns, fs => removeAllTmp ns (removeFile n fs)

/-- Model of `tar_wrapper_multiple(tarpath, filenames, function, **kwargs)`: extract
every named member to its own temp file, then, if any temp file was created,
call `function` with all the temp names positionally (in input order) inside a
`try/finally` that removes the temp files; finally `return out`.  When
`filenames` is empty the local `out` was never bound, so the `return out`
raises `NameError`. -/
def tar_wrapper_multiple {α K : Type} (tarpath : Tar) (filenames : List String)
    (function : List Nat → K → TmpFS → Except PyErr α) (kwargs : K) (fs : TmpFS) :
    Except PyErr α × TmpFS :=
  match extractLoop tarpath filenames fs [] with
  | (Except.error e, fs1) => (Except.error e, fs1)
  | (Except.ok tmp_filenames, fs1) =>
    if tmp_filenames.isEmpty then
      (Except.error PyErr.nameError, fs1)
    else
      let out := function tmp_filenames kwargs fs1
      (out, removeAllTmp tmp_filenames fs1)

/-- The contents of the named members, in order, when every named member
exists in the archive (`none` when some member is missing). -/
def tarContentsOf (tar : Tar) : List String → Option (List Content)
  | [] => some []
  | f :: rest =>
    match tarLookup tar f, tarContentsOf tar rest with
    | some c, some cs => some (c :: cs)
    | _, _ => none

/-! ## The spectrum data type and paths -/

/-- A `ramanalysis.RamanSpectrum`, embedded symbolically: each external parser
class method is a constructor remembering the file path(s) it was invoked on,
and `RamanSpectrum.mk` is the direct constructor from a wavenumber axis and an
intensity vector. -/
inductive RamanSpectrum where
  | from_horiba_txtfile (path : String)
  | from_renishaw_txtfile (path : String)
  | from_wasatch_csvfile (path : String)
  | from_openraman_csvfiles (sample neon acetonitrile : String)
  | from_generic_csvfile (path : String)
  | mk (wavenumbers_cm1 : List Int) (intensities : List Int)
deriving DecidableEq

/-- Model of `os.path.join` / the `pathlib` slash on our string paths. -/
def joinPath (a b : String) : String := a ++ "/" ++ b

/-- Source constant `REPO_ROOT_DIRECTORY = Path(__file__).parents[2]`. -/
def REPO_ROOT_DIRECTORY : String := "."

/-- Source constant `DATA_DIRECTORY = REPO_ROOT_DIRECTORY / "data"`. -/
def DATA_DIRECTORY : String := joinPath REPO_ROOT_DIRECTORY "data"

/-- A row of the metadata tables built by the first two loaders:
columns `instrument` and `λ_nm`. -/
structure InstRow where
  instrument : String
  lambda_nm : Nat
deriving DecidableEq

/-! ## load_acetonitrile_spectra -/

/-- Python `dict` lookup `d[k]` on an insertion-ordered association list
(all keys in this module's dicts are distinct, so first match is the value). -/
def dictGet : List ((String × Nat) × String) → (String × Nat) → String
  | [], _ => ""
  | (k, v) :: rest, q => if k = q then v else dictGet rest q

/-- The `filepaths` dict of `load_acetonitrile_spectra`, in insertion order. -/
def acetonitrile_filepaths : List ((String × Nat) × String) :=
  [ (("horiba", 785), joinPath DATA_DIRECTORY "Horiba_MacroRAM/acetonitrile.txt"),
    (("renishaw", 785), joinPath DATA_DIRECTORY "Renishaw_Qontor/acetonitrile_5x.txt"),
    (("wasatch", 785), joinPath DATA_DIRECTORY "Wasatch_WP785X/acetonitrile.csv"),
    (("openraman", 532), joinPath DATA_DIRECTORY "OpenRAMAN/acetonitrile_n_n_n_solid_10000_0_5.csv"),
    (("wasatch", 532), joinPath DATA_DIRECTORY "Wasatch_WP532X/acetonitrile.csv") ]

/-- Model of `load_acetonitrile_spectra()`: load the five acetonitrile files, one per
instrument, and build the parallel metadata table from the dict keys. -/
def load_acetonitrile_spectra : List RamanSpectrum × List InstRow :=
  let filepaths := acetonitrile_filepaths
  let openraman_neon_calibration :=
    joinPath DATA_DIRECTORY "OpenRAMAN/neon_n_n_n_solid_10000_0_5.csv"
  let spectra : List RamanSpectrum :=
    [ RamanSpectrum.from_horiba_txtfile (dictGet filepaths ("horiba", 785)),
      RamanSpectrum.from_renishaw_txtfile (dictGet filepaths ("renishaw", 785)),
      RamanSpectrum.from_wasatch_csvfile (dictGet filepaths ("wasatch", 785)),
      RamanSpectrum.from_openraman_csvfiles (dictGet filepaths ("openraman", 532))
        openraman_neon_calibration (dictGet filepaths ("openraman", 532)),
      RamanSpectrum.from_generic_csvfile (dictGet filepaths ("wasatch", 532)) ]
  (spectra, filepaths.map (fun kv => ⟨kv.1.1, kv.1.2⟩))

/-! ## load_cc124_tap_spectra -/

/-- The external `ramanalysis.readers.read_renishaw_multipoint_txt`, out of
scope for the repository: from a file path it yields
`(wavenumbers_cm1, intensities, positions)` where `intensities` is a matrix
with one row per scanned point. -/
structure Env where
  read_renishaw_multipoint_txt : String → List Int × (List (List Int) × List Int)

/-- Model of `load_cc124_tap_spectra()`: load the five CC-124 TAP files.  The Renishaw
spectrum comes from a three-point multipoint scan; the code builds
`RamanSpectrum(wavenumbers_cm1, intensities[0, :])` from the first point.
`none` models the `IndexError` that `intensities[0, :]` would raise were the
intensity matrix empty. -/
def load_cc124_tap_spectra (env : Env) : Option (List RamanSpectrum × List InstRow) :=
  let horiba_spectrum := RamanSpectrum.from_horiba_txtfile
    (joinPath DATA_DIRECTORY "Horiba_MacroRAM/CC-124-TAP-2.txt")
  let openraman_spectrum := RamanSpectrum.from_openraman_csvfiles
    (joinPath DATA_DIRECTORY "OpenRAMAN/CC-124_TAP_Pos-2-000_002.csv")
    (joinPath DATA_DIRECTORY "OpenRAMAN/neon_n_n_n_solid_10000_0_5.csv")
    (joinPath DATA_DIRECTORY "OpenRAMAN/acetonitrile_n_n_n_solid_10000_0_5.csv")
  let multipoint := env.read_renishaw_multipoint_txt
    (joinPath DATA_DIRECTORY "Renishaw_Qontor/CC-124_TAP_plate_5x_3_points.txt")
  match multipoint.2.1 with
  | [] => none
  | row0 :: _ =>
    let renishaw_spectrum := RamanSpectrum.mk multipoint.1 row0
    let wasatch_532_spectrum := RamanSpectrum.from_generic_csvfile
      (joinPath DATA_DIRECTORY "Wasatch_WP532X/CC-124_TAP_Pos-4-002_001.csv")
    let wasatch_785_spectrum := RamanSpectrum.from_wasatch_csvfile
      (joinPath DATA_DIRECTORY "Wasatch_WP785X/CC-124_TAP_WP-02071.csv")
    some ([horiba_spectrum, renishaw_spectrum, wasatch_785_spectrum,
           openraman_spectrum, wasatch_532_spectrum],
          [⟨"horiba", 785⟩, ⟨"renishaw", 785⟩, ⟨"wasatch", 785⟩,
           ⟨"openraman", 532⟩, ⟨"wasatch", 532⟩])

/-! ## load_chlamy_spectra -/

/-- A token of an `fnmatch` glob pattern: `*` or a literal character
(the pattern used in the module contains no `?` or `[...]`). -/
inductive GlobTok where
  | star
  | lit (c : Char)
deriving DecidableEq

/-- Literal tokens of a string. -/
def litToks (s : String) : List GlobTok := s.data.map GlobTok.lit

/-- The `fnmatch` pattern `*-Site_*.csv` from `load_chlamy_spectra`. -/
def sitePattern : List GlobTok :=
  [GlobTok.star] ++ litToks "-Site_" ++ [GlobTok.star] ++ litToks ".csv"

/-- Glob matching, POSIX-case-sensitive as `fnmatch.fnmatch` is on Linux. -/
def globMatch : List GlobTok → List Char → Bool
  | [], [] => true
  | [], _ :: _ => false
  | GlobTok.star :: ps, [] => globMatch ps []
  | GlobTok.star :: ps, c :: s =>
    globMatch ps (c :: s) || globMatch (GlobTok.star :: ps) s
  | GlobTok.lit _ :: _, [] => false
  | GlobTok.lit c :: ps, d :: s => c == d && globMatch ps s
termination_by p s => (p.length, s.length)

/-- Model of `fnmatch.fnmatch(filename, "*-Site_*.csv")`. -/
def fnmatchSite (s : String) : Bool := globMatch sitePattern s.data

/-- Character class `[A-H]`. -/
def isUpperAH (c : Char) : Bool := decide ('A' ≤ c) && decide (c ≤ 'H')

/-- Character class `[1-9]`. -/
def isDigit19 (c : Char) : Bool := decide ('1' ≤ c) && decide (c ≤ '9')

/-- Character class `[0-2]`. -/
def isDigit02 (c : Char) : Bool := decide ('0' ≤ c) && decide (c ≤ '2')

/-- Consume an exact literal character sequence from the front of a string. -/
def dropLit : List Char → List Char → Option (List Char)
  | [], l => some l
  | _ :: _, [] => none
  | c :: cs, d :: l => if c = d then dropLit cs l else none

/-- Greedy split into a maximal leading run of `\d` and the remainder. -/
def takeDigits : List Char → List Char × List Char
  | [] => ([], [])
  | c :: l =>
    if c.isDigit then
      let p := takeDigits l
      (c :: p.1, p.2)
    else ([], c :: l)

/-- Match the regex tail `-Site_(\d+)\.csv$` against the rest of the filename,
returning the capture of `(\d+)`.  Greedy `\d+` needs no backtracking here:
giving digits back would leave a digit where `\.` must match. -/
def parseSiteTail (l : List Char) : Option (List Char) :=
  (dropLit ("-Site_".data) l).bind (fun l1 =>
    if (takeDigits l1).1 = [] then none
    else if (takeDigits l1).2 = (".csv".data) then some (takeDigits l1).1 else none)

/-- Model of `re.match(r"^([A-H](?:[1-9]|1[0-2]))-Site_(\d+)\.csv$", filename)`,
returning the two captures `(well_id, site)`.  The ordered alternation
`[1-9]|1[0-2]` is tried left to right with backtracking, exactly as `re`
does: the single-digit branch first, then (only when the digit is `1`)
the two-digit branch. -/
def parseChlamyFilename (s : String) : Option (String × String) :=
  match s.data with
  | [] => none
  | c :: rest =>
    if isUpperAH c then
      match rest with
      | [] => none
      | d :: rest2 =>
        if isDigit19 d then
          match parseSiteTail rest2 with
          | some site => some (⟨[c, d]⟩, ⟨site⟩)
          | none =>
            if d = '1' then
              match rest2 with
              | [] => none
              | e :: rest3 =>
                if isDigit02 e then
                  (parseSiteTail rest3).map (fun site => (⟨[c, d, e]⟩, ⟨site⟩))
                else none
            else none
        else none
    else none

/-- The five per-spectrum accumulator lists built inside the walk loop. -/
structure ChlamyState where
  spectra : List RamanSpectrum
  instrument_data : List String
  wavelength_data : List Nat
  well_id_data : List String
  site_data : List String
deriving DecidableEq

/-- The empty accumulators at the top of `load_chlamy_spectra`. -/
def initChlamyState : ChlamyState := ⟨[], [], [], [], []⟩

/-- Flatten the result of `os.walk(data_directory)` — a list of
`(root, filenames)` groups — into `(root, filename)` pairs in walk order. -/
def walkFiles : List (String × List String) → List (String × String)
  | [] => []
  | (r, fs) :: rest => fs.map (fun f => (r, f)) ++ walkFiles rest

/-- The body of the walk loop: for each file, if it matches the glob pattern
and then the regular expression, load it with
`RamanSpectrum.from_generic_csvfile` and append to all five lists. -/
def chlamyLoop : List (String × String) → ChlamyState → ChlamyState
  | [], st => st
  | p :: rest, st =>
    if fnmatchSite p.2 then
      match parseChlamyFilename p.2 with
      | some ws =>
        chlamyLoop rest
          { spectra := st.spectra ++ [RamanSpectrum.from_generic_csvfile (joinPath p.1 p.2)],
            instrument_data := st.instrument_data ++ ["wasatch"],
            wavelength_data := st.wavelength_data ++ [785],
            well_id_data := st.well_id_data ++ [ws.1],
            site_data := st.site_data ++ [ws.2] }
      | none => chlamyLoop rest st
    else chlamyLoop rest st

/-- A row of the `load_chlamy_spectra` metadata table: columns
`instrument`, `λ_nm`, `well_ID`, `site` (the latter two are the raw string
captures from the filename). -/
structure ChlamyRow where
  instrument : String
  lambda_nm : Nat
  well_ID : String
  site : String
deriving DecidableEq

/-- Model of `pd.DataFrame(data)` over the four equal-length columns: row `i` takes the
`i`-th element of each column. -/
def mkRows : List String → List Nat → List String → List String → List ChlamyRow
  | i :: is, l :: ls, w :: ws, s :: ss => ⟨i, l, w, s⟩ :: mkRows is ls ws ss
  | _, _, _, _ => []

/-- Model of `load_chlamy_spectra(data_directory)`, taking the `os.walk` listing of the
directory as input (the walk itself is the operating system's). -/
def load_chlamy_spectra (walk : List (String × List String)) :
    List RamanSpectrum × List ChlamyRow :=
  let st := chlamyLoop (walkFiles walk) initChlamyState
  (st.spectra, mkRows st.instrument_data st.wavelength_data st.well_id_data st.site_data)

/-- One loaded chlamy file: its joined path and the two regex captures. -/
structure ChlamyEntry where
  path : String
  well : String
  site : String
deriving DecidableEq

/-- The entry one walked file contributes when (and only when) the regular
expression accepts its basename. -/
def entryOf (p : String × String) : Option ChlamyEntry :=
  (parseChlamyFilename p.2).map (fun ws => ⟨joinPath p.1 p.2, ws.1, ws.2⟩)

/-- The files of the walk that the regular expression accepts, with their
captures, in walk order — the reference against which the loader (which also
applies the glob pre-filter) is compared. -/
def chlamyEntries (walk : List (String × List String)) : List ChlamyEntry :=
  (walkFiles walk).filterMap entryOf

/-- The well capture accepted by `([A-H](?:[1-9]|1[0-2]))`: a letter `A`-`H`
followed by a number 1-12 (one digit `1`-`9`, or `1` then `0`-`2`). -/
def wellOk : List Char → Bool
  | [c, d] => isUpperAH c && isDigit19 d
  | [c, o, e] => isUpperAH c && o == '1' && isDigit02 e
  | _ => false

/-! ## Module inventory -/

/-- The kind of each top-level function of the module. -/
inductive FunctionKind where
  | loader
  | archiveHelper
deriving DecidableEq

/-- A top-level function of the module. -/
structure ModuleFunction where
  name : String
  kind : FunctionKind
deriving DecidableEq

/-- The top-level functions defined in `load_spectra.py`, in source order. -/
def load_spectra_module : List ModuleFunction :=
  [ ⟨"tar_wrapper_single", FunctionKind.archiveHelper⟩,
    ⟨"tar_wrapper_multiple", FunctionKind.archiveHelper⟩,
    ⟨"load_acetonitrile_spectra", FunctionKind.loader⟩,
    ⟨"load_cc124_tap_spectra", FunctionKind.loader⟩,
    ⟨"load_chlamy_spectra", FunctionKind.loader⟩ ]

/-! ## Lemmas about the tar wrapper utilities -/

theorem extractLoop_spec (tar : Tar) (fns : List String) :
    ∀ (cs : List Content) (fs : TmpFS) (acc : List Nat),
      tarContentsOf tar fns = some cs →
      extractLoop tar fns fs acc =
        (Except.ok (acc ++ List.range' fs.counter fns.length),
         ⟨((List.range' fs.counter fns.length).zip cs).reverse ++ fs.files,
          fs.counter + fns.length⟩) := by
  induction fns with
  | nil =>
    intro cs fs acc h
    simp [tarContentsOf] at h
    subst h
    simp [extractLoop]
  | cons fn rest ih =>
    intro cs fs acc h
    cases hl : tarLookup tar fn with
    | none => simp [tarContentsOf, hl] at h
    | some c =>
      cases hr : tarContentsOf tar rest with
      | none => simp [tarContentsOf, hl, hr] at h
      | some cs' =>
        simp [tarContentsOf, hl, hr] at h
        subst h
        have hrec := ih cs' ⟨(fs.counter, c) :: fs.files, fs.counter + 1⟩ (acc ++ [fs.counter]) hr
        simp only [extractLoop, hl]
        rw [hrec]
        simp [List.range'_succ, List.append_assoc]
        omega

theorem removeAllTmp_files (ns : List Nat) :
    ∀ fs : TmpFS,
      (removeAllTmp ns fs).files = fs.files.filter (fun p => p.1 ∉ ns) := by
  induction ns with
  | nil => intro fs; simp [removeAllTmp]
  | cons n ns ih =>
    intro fs
    rw [removeAllTmp, ih]
    simp only [removeFile, List.filter_filter]
    apply List.filter_congr
    intro a _
    by_cases h1 : a.1 = n <;> by_cases h2 : a.1 ∈ ns <;> simp [h1, h2]

/-- C5: for every tar archive and member filename present in the archive,
`tar_wrapper_single` extracts that member to a fresh temporary path, calls the
given function on that path forwarding the keyword arguments, and returns
exactly the value the function returned; the temp file the function sees holds
the member's contents. -/
theorem c5_tar_wrapper_single_spec {α K : Type} (tar : Tar) (filename : String)
    (function : Nat → K → TmpFS → Except PyErr α) (kwargs : K) (fs : TmpFS)
    (content : Content) (h : tarLookup tar filename = some content) :
    (tar_wrapper_single tar filename function kwargs fs).1 =
      function fs.counter kwargs ⟨(fs.counter, content) :: fs.files, fs.counter + 1⟩ ∧
    readTmp ⟨(fs.counter, content) :: fs.files, fs.counter + 1⟩ fs.counter = some content := by
  constructor
  · simp [tar_wrapper_single, h]
  · simp [readTmp, lookupTmp]

theorem c5_witness :
    tarLookup [("a", [1])] "a" = some [1] ∧
    ((tar_wrapper_single (α := Nat) (K := Unit) [("a", [1])] "a"
        (fun n _ fs => Except.ok ((readTmp fs n).getD []).length) () ⟨[], 5⟩).1 =
      (fun (n : Nat) (_ : Unit) (fs : TmpFS) => Except.ok ((readTmp fs n).getD []).length)
        5 () ⟨(5, [1]) :: [], 5 + 1⟩ ∧
     readTmp ⟨(5, [1]) :: [], 5 + 1⟩ 5 = some [1]) :=
  ⟨by decide,
   c5_tar_wrapper_single_spec [("a", [1])] "a"
     (fun n _ fs => Except.ok ((readTmp fs n).getD []).length) () ⟨[], 5⟩ [1] (by decide)⟩

/-- C6: for every tar archive, non-empty list of member filenames all present
in the archive, `tar_wrapper_multiple` extracts each named member to its own
fresh temporary path (the paths are pairwise distinct, one per filename, in
input order), calls the given function once with those paths positionally,
forwarding the keyword arguments, and returns exactly the value the function
returned; the temp area the function sees pairs the `i`-th path with the
contents of the `i`-th named member. -/
theorem c6_tar_wrapper_multiple_spec {α K : Type} (tar : Tar) (filenames : List String)
    (function : List Nat → K → TmpFS → Except PyErr α) (kwargs : K) (fs : TmpFS)
    (cs : List Content) (hne : filenames ≠ [])
    (h : tarContentsOf tar filenames = some cs) :
    (tar_wrapper_multiple tar filenames function kwargs fs).1 =
      function (List.range' fs.counter filenames.length) kwargs
        ⟨((List.range' fs.counter filenames.length).zip cs).reverse ++ fs.files,
         fs.counter + filenames.length⟩ ∧
    (List.range' fs.counter filenames.length).length = filenames.length ∧
    (List.range' fs.counter filenames.length).Nodup := by
  refine ⟨?_, by simp, List.nodup_range' _ _⟩
  have hext := extractLoop_spec tar filenames cs fs [] h
  have hnonnil : (List.range' fs.counter filenames.length).isEmpty = false := by
    simp [List.isEmpty_eq_false]
    intro hlen
    exact hne hlen
  simp [tar_wrapper_multiple, hext, hnonnil]

theorem c6_witness :
    (["a", "b"] : List String) ≠ [] ∧
    tarContentsOf [("a", [1]), ("b", [2])] ["a", "b"] = some [[1], [2]] ∧
    ((tar_wrapper_multiple (α := List Nat) (K := Unit) [("a", [1]), ("b", [2])] ["a", "b"]
        (fun ns _ _ => Except.ok ns) () ⟨[], 0⟩).1 =
      (fun (ns : List Nat) (_ : Unit) (_ : TmpFS) => Except.ok ns)
        (List.range' 0 (["a", "b"] : List String).length) ()
        ⟨((List.range' 0 (["a", "b"] : List String).length).zip [[1], [2]]).reverse ++ [],
         0 + (["a", "b"] : List String).length⟩ ∧
     (List.range' 0 (["a", "b"] : List String).length).length =
       (["a", "b"] : List String).length ∧
     (List.range' 0 (["a", "b"] : List String).length).Nodup) :=
  ⟨by decide, by decide,
   c6_tar_wrapper_multiple_spec [("a", [1]), ("b", [2])] ["a", "b"]
     (fun ns _ _ => Except.ok ns) () ⟨[], 0⟩ [[1], [2]] (by decide) (by decide)⟩

/-- C8: called with an empty filenames list, `tar_wrapper_multiple` never calls
the given function (the outcome is the same for every function) and raises
`NameError` (the local `out` is read before being bound) with the temp area
untouched; it returns a normal value only when the filenames list is
non-empty. -/
theorem c8_tar_wrapper_multiple_empty :
    (∀ {α K : Type} (tar : Tar) (function : List Nat → K → TmpFS → Except PyErr α)
       (kwargs : K) (fs : TmpFS),
       tar_wrapper_multiple tar [] function kwargs fs = (Except.error PyErr.nameError, fs)) ∧
    (∀ {α K : Type} (tar : Tar) (filenames : List String)
       (function : List Nat → K → TmpFS → Except PyErr α) (kwargs : K) (fs : TmpFS) (v : α),
       (tar_wrapper_multiple tar filenames function kwargs fs).1 = Except.ok v →
       filenames ≠ []) := by
  constructor
  · intro α K tar function kwargs fs
    rfl
  · intro α K tar filenames function kwargs fs v h hnil
    subst hnil
    simp [tar_wrapper_multiple, extractLoop] at h

theorem c8_witness :
    (tar_wrapper_multiple (α := Nat) (K := Unit) [("a", [1])] ["a"]
        (fun _ _ _ => Except.ok 0) () ⟨[], 0⟩).1 = Except.ok 0 ∧
    (["a"] : List String) ≠ [] :=
  ⟨rfl,
   c8_tar_wrapper_multiple_empty.2 [("a", [1])] ["a"]
     (fun _ _ _ => Except.ok 0) () ⟨[], 0⟩ 0 rfl⟩

/-! ## Lemmas about the filename pattern matching -/

theorem dropLit_sound : ∀ (cs l r : List Char), dropLit cs l = some r → l = cs ++ r := by
  intro cs
  induction cs with
  | nil =>
    intro l r h
    simp [dropLit] at h
    simp [h]
  | cons c cs ih =>
    intro l r h
    cases l with
    | nil => simp [dropLit] at h
    | cons d l' =>
      simp only [dropLit] at h
      split at h
      · next hcd => rw [List.cons_append, ← hcd, ih l' r h]
      · exact absurd h (by simp)

theorem dropLit_self : ∀ (cs r : List Char), dropLit cs (cs ++ r) = some r := by
  intro cs r
  induction cs with
  | nil => rfl
  | cons c cs ih => simp [dropLit, ih]

theorem takeDigits_append : ∀ l : List Char, (takeDigits l).1 ++ (takeDigits l).2 = l := by
  intro l
  induction l with
  | nil => rfl
  | cons c l ih =>
    by_cases hc : c.isDigit = true
    · simp [takeDigits, hc, ih]
    · simp [takeDigits, hc]

theorem takeDigits_digits : ∀ l : List Char, (takeDigits l).1.all Char.isDigit = true := by
  intro l
  induction l with
  | nil => rfl
  | cons c l ih =>
    by_cases hc : c.isDigit = true
    · simp [takeDigits, hc, ih]
    · simp [takeDigits, hc]

theorem takeDigits_all_digits_dot : ∀ (t r : List Char), t.all Char.isDigit = true →
    takeDigits (t ++ '.' :: r) = (t, '.' :: r) := by
  intro t
  induction t with
  | nil =>
    intro r _
    have hdot : ('.' : Char).isDigit = false := by decide
    simp [takeDigits, hdot]
  | cons c t ih =>
    intro r h
    simp only [List.all_cons, Bool.and_eq_true] at h
    simp [takeDigits, h.1, ih r h.2]

theorem parseSiteTail_sound (l ds : List Char) (h : parseSiteTail l = some ds) :
    l = "-Site_".data ++ (ds ++ ".csv".data) ∧ ds ≠ [] ∧ ds.all Char.isDigit = true := by
  unfold parseSiteTail at h
  cases hd : dropLit "-Site_".data l with
  | none => rw [hd] at h; exact absurd h (by simp)
  | some l1 =>
    rw [hd] at h
    simp only [Option.some_bind] at h
    split at h
    · exact absurd h (by simp)
    · next hne =>
      split at h
      · next hcsv =>
        simp only [Option.some.injEq] at h
        subst h
        refine ⟨?_, hne, takeDigits_digits l1⟩
        calc l = "-Site_".data ++ l1 := dropLit_sound _ _ _ hd
          _ = "-Site_".data ++ ((takeDigits l1).1 ++ (takeDigits l1).2) := by
              rw [takeDigits_append]
          _ = "-Site_".data ++ ((takeDigits l1).1 ++ ".csv".data) := by rw [hcsv]
      · exact absurd h (by simp)

theorem parseSiteTail_self (ds : List Char) (h1 : ds ≠ []) (h2 : ds.all Char.isDigit = true) :
    parseSiteTail ("-Site_".data ++ (ds ++ ".csv".data)) = some ds := by
  unfold parseSiteTail
  rw [dropLit_self]
  simp only [Option.some_bind]
  rw [takeDigits_all_digits_dot ds _ h2]
  simp [h1]

theorem parse_sound (s w t : String) (h : parseChlamyFilename s = some (w, t)) :
    s.data = w.data ++ ("-Site_".data ++ (t.data ++ ".csv".data)) ∧
    wellOk w.data = true ∧ t.data ≠ [] ∧ t.data.all Char.isDigit = true := by
  obtain ⟨sd⟩ := s
  cases sd with
  | nil => exact absurd h (by simp [parseChlamyFilename])
  | cons c rest =>
    unfold parseChlamyFilename at h
    simp only [] at h
    by_cases hAH : isUpperAH c = true
    case neg => rw [if_neg hAH] at h; exact absurd h (by simp)
    rw [if_pos hAH] at h
    cases rest with
    | nil => exact absurd h (by simp)
    | cons d rest2 =>
      simp only [] at h
      by_cases h19 : isDigit19 d = true
      case neg => rw [if_neg h19] at h; exact absurd h (by simp)
      rw [if_pos h19] at h
      cases hst : parseSiteTail rest2 with
      | some site =>
        rw [hst] at h
        simp only [Option.some.injEq, Prod.mk.injEq] at h
        obtain ⟨hw, ht⟩ := h
        obtain ⟨hdec, hne, hdig⟩ := parseSiteTail_sound rest2 site hst
        subst hw
        subst ht
        refine ⟨?_, ?_, hne, hdig⟩
        · show c :: d :: rest2 = [c, d] ++ ("-Site_".data ++ (site ++ ".csv".data))
          rw [hdec]
          rfl
        · simp [wellOk, hAH, h19]
      | none =>
        rw [hst] at h
        by_cases hd1 : d = '1'
        case neg => rw [if_neg hd1] at h; exact absurd h (by simp)
        rw [if_pos hd1] at h
        cases rest2 with
        | nil => exact absurd h (by simp)
        | cons e rest3 =>
          simp only [] at h
          by_cases h02 : isDigit02 e = true
          case neg => rw [if_neg h02] at h; exact absurd h (by simp)
          rw [if_pos h02] at h
          cases hst3 : parseSiteTail rest3 with
          | none => rw [hst3] at h; exact absurd h (by simp)
          | some site =>
            rw [hst3] at h
            simp only [Option.map_some', Option.some.injEq, Prod.mk.injEq] at h
            obtain ⟨hw, ht⟩ := h
            obtain ⟨hdec, hne, hdig⟩ := parseSiteTail_sound rest3 site hst3
            subst hw
            subst ht
            subst hd1
            refine ⟨?_, ?_, hne, hdig⟩
            · show c :: '1' :: e :: rest3 = [c, '1', e] ++ ("-Site_".data ++ (site ++ ".csv".data))
              rw [hdec]
              rfl
            · simp [wellOk, hAH, h02]

theorem parse_complete (w t : List Char) (hw : wellOk w = true) (ht : t ≠ [])
    (hdig : t.all Char.isDigit = true) :
    parseChlamyFilename ⟨w ++ ("-Site_".data ++ (t ++ ".csv".data))⟩ = some (⟨w⟩, ⟨t⟩) := by
  have hself : parseSiteTail ('-' :: 'S' :: 'i' :: 't' :: 'e' :: '_' :: (t ++ ['.', 'c', 's', 'v'])) =
      some t := parseSiteTail_self t ht hdig
  match w with
  | [] => simp [wellOk] at hw
  | [_] => simp [wellOk] at hw
  | [c, d] =>
    simp only [wellOk, Bool.and_eq_true] at hw
    obtain ⟨hAH, h19⟩ := hw
    unfold parseChlamyFilename
    simp only [List.cons_append, List.nil_append]
    rw [if_pos hAH, if_pos h19, hself]
  | [c, o, e] =>
    simp only [wellOk, Bool.and_eq_true, beq_iff_eq] at hw
    obtain ⟨⟨hAH, ho⟩, h02⟩ := hw
    subst ho
    unfold parseChlamyFilename
    simp only [List.cons_append, List.nil_append]
    rw [if_pos hAH]
    have h19 : isDigit19 '1' = true := by decide
    rw [if_pos h19]
    have hnone : parseSiteTail (e :: '-' :: 'S' :: 'i' :: 't' :: 'e' :: '_' ::
        (t ++ ['.', 'c', 's', 'v'])) = none := by
      have hne : ('-' : Char) ≠ e := by
        intro he
        rw [← he] at h02
        exact absurd h02 (by decide)
      unfold parseSiteTail
      simp [dropLit, hne]
    rw [hnone]
    simp [h02, hself]
  | _ :: _ :: _ :: _ :: _ => simp [wellOk] at hw

theorem globMatch_star_append (a : List Char) : ∀ (s : List Char) (ps : List GlobTok),
    globMatch ps s = true → globMatch (GlobTok.star :: ps) (a ++ s) = true := by
  induction a with
  | nil =>
    intro s ps h
    cases s with
    | nil => simpa [globMatch] using h
    | cons c s' => simp [globMatch, h]
  | cons c a' ih =>
    intro s ps h
    simp only [List.cons_append, globMatch, Bool.or_eq_true]
    exact Or.inr (ih s ps h)

theorem globMatch_lits_append : ∀ (cs s : List Char) (ps : List GlobTok),
    globMatch (cs.map GlobTok.lit ++ ps) (cs ++ s) = globMatch ps s := by
  intro cs
  induction cs with
  | nil => intro s ps; rfl
  | cons c cs ih => intro s ps; simp [globMatch, ih]

theorem globMatch_lits_nil : ∀ cs : List Char, globMatch (cs.map GlobTok.lit) cs = true := by
  intro cs
  induction cs with
  | nil => simp [globMatch]
  | cons c cs ih => simp [globMatch, ih]

theorem parse_fnmatchSite (s : String) (ws : String × String)
    (h : parseChlamyFilename s = some ws) : fnmatchSite s = true := by
  obtain ⟨hdec, -, -, -⟩ := parse_sound s ws.1 ws.2 h
  unfold fnmatchSite
  rw [hdec]
  have hpat : sitePattern =
      GlobTok.star :: ("-Site_".data.map GlobTok.lit ++
        (GlobTok.star :: ".csv".data.map GlobTok.lit)) := rfl
  rw [hpat]
  apply globMatch_star_append
  rw [globMatch_lits_append]
  apply globMatch_star_append
  exact globMatch_lits_nil ".csv".data

theorem chlamyLoop_spec : ∀ (files : List (String × String)) (st : ChlamyState),
    chlamyLoop files st =
      ⟨st.spectra ++ (files.filterMap entryOf).map
          (fun e => RamanSpectrum.from_generic_csvfile e.path),
       st.instrument_data ++ (files.filterMap entryOf).map (fun _ => "wasatch"),
       st.wavelength_data ++ (files.filterMap entryOf).map (fun _ => 785),
       st.well_id_data ++ (files.filterMap entryOf).map (fun e => e.well),
       st.site_data ++ (files.filterMap entryOf).map (fun e => e.site)⟩ := by
  intro files
  induction files with
  | nil => intro st; simp [chlamyLoop]
  | cons p rest ih =>
    intro st
    cases hp : parseChlamyFilename p.2 with
    | some ws =>
      have hfn : fnmatchSite p.2 = true := parse_fnmatchSite p.2 ws hp
      have he : entryOf p = some ⟨joinPath p.1 p.2, ws.1, ws.2⟩ := by
        simp [entryOf, hp]
      simp only [chlamyLoop, hfn, eq_self_iff_true, if_true, hp]
      rw [ih]
      simp [he, List.filterMap_cons, List.append_assoc]
    | none =>
      have he : entryOf p = none := by simp [entryOf, hp]
      simp only [chlamyLoop, hp, ite_self]
      rw [ih]
      simp [he, List.filterMap_cons]

theorem mkRows_map (es : List ChlamyEntry) (f1 : ChlamyEntry → String)
    (f2 : ChlamyEntry → Nat) (f3 f4 : ChlamyEntry → String) :
    mkRows (es.map f1) (es.map f2) (es.map f3) (es.map f4) =
      es.map (fun e => ⟨f1 e, f2 e, f3 e, f4 e⟩) := by
  induction es with
  | nil => rfl
  | cons e es ih => simp [mkRows, ih]

theorem load_chlamy_spectra_eq (walk : List (String × List String)) :
    load_chlamy_spectra walk =
      ((chlamyEntries walk).map (fun e => RamanSpectrum.from_generic_csvfile e.path),
       (chlamyEntries walk).map (fun e => ⟨"wasatch", 785, e.well, e.site⟩)) := by
  unfold load_chlamy_spectra chlamyEntries
  rw [chlamyLoop_spec]
  simp only [initChlamyState, List.nil_append]
  rw [mkRows_map]

/-- C7 as stated is violated by `tar_wrapper_multiple` when extraction itself
fails: with archive `[("a", [1])]` and filenames `["a", "b"]`, the member `"b"`
is missing, `extractfile` raises `KeyError` after `"a"` was already extracted
to a `delete=False` temp file, and that temp file is left behind — the final
temp area differs from the initial (empty) one. -/
theorem c7_counterexample :
    (tar_wrapper_multiple (α := Unit) (K := Unit) [("a", [1])] ["a", "b"]
        (fun _ _ _ => Except.ok ()) () ⟨[], 0⟩).2.files ≠
      (⟨[], 0⟩ : TmpFS).files := by decide

/-- C7 (amended): under the temp-name allocator invariant, `tar_wrapper_single`
never leaves a temporary file behind (the `delete=True` context removes it even
when the wrapped function raises, and a missing member creates no file); and
`tar_wrapper_multiple` leaves no temporary file behind *provided every named
member exists in the archive*, even when the wrapped function raises — when
extraction of a later member fails, temp files already extracted are leaked. -/
theorem filter_not_mem_zip_reverse_append (ns : List Nat) (cs : List Content)
    (tl : List (Nat × Content)) (h : ∀ p ∈ tl, p.1 ∉ ns) :
    ((ns.zip cs).reverse ++ tl).filter (fun p => p.1 ∉ ns) = tl := by
  rw [List.filter_append]
  have h1 : ((ns.zip cs).reverse).filter (fun p => p.1 ∉ ns) = [] := by
    apply List.filter_eq_nil_iff.mpr
    intro a ha
    rw [List.mem_reverse] at ha
    obtain ⟨x, y⟩ := a
    have hx := (List.of_mem_zip ha).1
    simp [hx]
  have h2 : tl.filter (fun p => p.1 ∉ ns) = tl := by
    apply List.filter_eq_self.mpr
    intro a ha
    simpa using h a ha
  rw [h1, h2, List.nil_append]

theorem c7_no_temp_leak :
    (∀ {α K : Type} (tar : Tar) (filename : String)
       (function : Nat → K → TmpFS → Except PyErr α) (kwargs : K) (fs : TmpFS),
       fs.WF → (tar_wrapper_single tar filename function kwargs fs).2.files = fs.files) ∧
    (∀ {α K : Type} (tar : Tar) (filenames : List String) (cs : List Content)
       (function : List Nat → K → TmpFS → Except PyErr α) (kwargs : K) (fs : TmpFS),
       fs.WF → tarContentsOf tar filenames = some cs →
       (tar_wrapper_multiple tar filenames function kwargs fs).2.files = fs.files) := by
  constructor
  · intro α K tar filename function kwargs fs hwf
    cases hl : tarLookup tar filename with
    | none => simp [tar_wrapper_single, hl]
    | some c =>
      simp only [tar_wrapper_single, hl, removeFile]
      rw [List.filter_cons_of_neg (by simp)]
      exact List.filter_eq_self.mpr (fun a ha => by
        simpa using Nat.ne_of_lt (hwf a ha))
  · intro α K tar filenames cs function kwargs fs hwf hc
    rcases eq_or_ne filenames [] with hnil | hnil
    · subst hnil
      rfl
    · have hext := extractLoop_spec tar filenames cs fs [] hc
      have hne : (List.range' fs.counter filenames.length).isEmpty = false := by
        simp [List.isEmpty_eq_false]
        intro h0
        exact hnil h0
      simp [tar_wrapper_multiple, hext, hne]
      rw [removeAllTmp_files, filter_not_mem_zip_reverse_append]
      intro p hp
      have hlt := hwf p hp
      simp only [List.mem_range']
      rintro ⟨i, hi, hae⟩
      omega

/-! ## Claim theorems about the loaders -/

/-- C3: `load_acetonitrile_spectra` maps its five known data files to the
instrument identities (horiba 785, renishaw 785, wasatch 785, openraman 532,
wasatch 532) and loads each file with the parser class method used for that
instrument (the OpenRAMAN file also gets its neon calibration file and the
acetonitrile file itself as calibration inputs), returning the five resulting
spectra in that order. -/
theorem c3_acetonitrile_instruments :
    load_acetonitrile_spectra =
      ([ RamanSpectrum.from_horiba_txtfile
           (joinPath DATA_DIRECTORY "Horiba_MacroRAM/acetonitrile.txt"),
         RamanSpectrum.from_renishaw_txtfile
           (joinPath DATA_DIRECTORY "Renishaw_Qontor/acetonitrile_5x.txt"),
         RamanSpectrum.from_wasatch_csvfile
           (joinPath DATA_DIRECTORY "Wasatch_WP785X/acetonitrile.csv"),
         RamanSpectrum.from_openraman_csvfiles
           (joinPath DATA_DIRECTORY "OpenRAMAN/acetonitrile_n_n_n_solid_10000_0_5.csv")
           (joinPath DATA_DIRECTORY "OpenRAMAN/neon_n_n_n_solid_10000_0_5.csv")
           (joinPath DATA_DIRECTORY "OpenRAMAN/acetonitrile_n_n_n_solid_10000_0_5.csv"),
         RamanSpectrum.from_generic_csvfile
           (joinPath DATA_DIRECTORY "Wasatch_WP532X/acetonitrile.csv") ],
       [⟨"horiba", 785⟩, ⟨"renishaw", 785⟩, ⟨"wasatch", 785⟩,
        ⟨"openraman", 532⟩, ⟨"wasatch", 532⟩]) := rfl

/-- C4 as stated is false: the module does not contain four loader functions.
It defines exactly five top-level functions, of which three (not four) are
loaders. -/
theorem c4_counterexample :
    ¬ (load_spectra_module.filter
        (fun f => f.kind = FunctionKind.loader)).length = 4 := by decide

/-- C4 (amended): the module is a flat collection of exactly three loader
functions plus exactly two filesystem-archive helper utilities (five top-level
functions in total); statelessness is reflected in the embedding, where each
is a pure function of its inputs. -/
theorem c4_module_inventory :
    (load_spectra_module.filter (fun f => f.kind = FunctionKind.loader)).length = 3 ∧
    (load_spectra_module.filter
      (fun f => f.kind = FunctionKind.archiveHelper)).length = 2 ∧
    load_spectra_module.length = 5 := by decide

/-- C9: the Renishaw spectrum of `load_cc124_tap_spectra` is built from the
first point of the multipoint scan: spectrum index 1 is
`RamanSpectrum(wavenumbers_cm1, intensities[0, :])`, i.e. row 0 of the
intensity matrix returned by `read_renishaw_multipoint_txt`, paired with the
full wavenumber axis. -/
theorem c9_renishaw_first_point (env : Env) (w : List Int) (ints : List (List Int))
    (pos : List Int) (spectra : List RamanSpectrum) (rows : List InstRow)
    (hread : env.read_renishaw_multipoint_txt
      (joinPath DATA_DIRECTORY "Renishaw_Qontor/CC-124_TAP_plate_5x_3_points.txt") =
      (w, (ints, pos)))
    (h : load_cc124_tap_spectra env = some (spectra, rows)) :
    spectra[1]? = some (RamanSpectrum.mk w (ints.headD [])) := by
  simp only [load_cc124_tap_spectra, hread] at h
  cases hints : ints with
  | nil => rw [hints] at h; exact absurd h (by simp)
  | cons row0 rest =>
    rw [hints] at h
    simp only [Option.some.injEq, Prod.mk.injEq] at h
    obtain ⟨hsp, -⟩ := h
    subst hsp
    rfl

theorem c9_witness :
    (⟨fun _ => ([10], ([[1, 2], [3, 4]], [7]))⟩ : Env).read_renishaw_multipoint_txt
      (joinPath DATA_DIRECTORY "Renishaw_Qontor/CC-124_TAP_plate_5x_3_points.txt") =
      ([10], ([[1, 2], [3, 4]], [7])) ∧
    load_cc124_tap_spectra ⟨fun _ => ([10], ([[1, 2], [3, 4]], [7]))⟩ =
      some ([ RamanSpectrum.from_horiba_txtfile
                (joinPath DATA_DIRECTORY "Horiba_MacroRAM/CC-124-TAP-2.txt"),
              RamanSpectrum.mk [10] [1, 2],
              RamanSpectrum.from_wasatch_csvfile
                (joinPath DATA_DIRECTORY "Wasatch_WP785X/CC-124_TAP_WP-02071.csv"),
              RamanSpectrum.from_openraman_csvfiles
                (joinPath DATA_DIRECTORY "OpenRAMAN/CC-124_TAP_Pos-2-000_002.csv")
                (joinPath DATA_DIRECTORY "OpenRAMAN/neon_n_n_n_solid_10000_0_5.csv")
                (joinPath DATA_DIRECTORY "OpenRAMAN/acetonitrile_n_n_n_solid_10000_0_5.csv"),
              RamanSpectrum.from_generic_csvfile
                (joinPath DATA_DIRECTORY "Wasatch_WP532X/CC-124_TAP_Pos-4-002_001.csv") ],
            [⟨"horiba", 785⟩, ⟨"renishaw", 785⟩, ⟨"wasatch", 785⟩,
             ⟨"openraman", 532⟩, ⟨"wasatch", 532⟩]) ∧
    ([ RamanSpectrum.from_horiba_txtfile
         (joinPath DATA_DIRECTORY "Horiba_MacroRAM/CC-124-TAP-2.txt"),
       RamanSpectrum.mk [10] [1, 2],
       RamanSpectrum.from_wasatch_csvfile
         (joinPath DATA_DIRECTORY "Wasatch_WP785X/CC-124_TAP_WP-02071.csv"),
       RamanSpectrum.from_openraman_csvfiles
         (joinPath DATA_DIRECTORY "OpenRAMAN/CC-124_TAP_Pos-2-000_002.csv")
         (joinPath DATA_DIRECTORY "OpenRAMAN/neon_n_n_n_solid_10000_0_5.csv")
         (joinPath DATA_DIRECTORY "OpenRAMAN/acetonitrile_n_n_n_solid_10000_0_5.csv"),
       RamanSpectrum.from_generic_csvfile
         (joinPath DATA_DIRECTORY "Wasatch_WP532X/CC-124_TAP_Pos-4-002_001.csv") ])[1]? =
      some (RamanSpectrum.mk [10] ([[1, 2], [3, 4]].headD [])) :=
  ⟨rfl, rfl,
   c9_renishaw_first_point ⟨fun _ => ([10], ([[1, 2], [3, 4]], [7]))⟩
     [10] [[1, 2], [3, 4]] [7] _ _ rfl rfl⟩

/-- C1: for every loader, the metadata table is parallel to the spectra list:
it has exactly as many rows as there are spectra, and row `i` carries the
instrument and wavelength (and, for `load_chlamy_spectra`, well and site) of
the file from which spectrum `i` was loaded — exhibited by the explicit
spectrum/row pairing for the two fixed loaders and by the per-index
correspondence through the matched-file list for `load_chlamy_spectra`. -/
theorem c1_parallel_tables :
    (load_acetonitrile_spectra.2.length = load_acetonitrile_spectra.1.length ∧
     load_acetonitrile_spectra.1.zip load_acetonitrile_spectra.2 =
       [ (RamanSpectrum.from_horiba_txtfile
            (joinPath DATA_DIRECTORY "Horiba_MacroRAM/acetonitrile.txt"),
          ⟨"horiba", 785⟩),
         (RamanSpectrum.from_renishaw_txtfile
            (joinPath DATA_DIRECTORY "Renishaw_Qontor/acetonitrile_5x.txt"),
          ⟨"renishaw", 785⟩),
         (RamanSpectrum.from_wasatch_csvfile
            (joinPath DATA_DIRECTORY "Wasatch_WP785X/acetonitrile.csv"),
          ⟨"wasatch", 785⟩),
         (RamanSpectrum.from_openraman_csvfiles
            (joinPath DATA_DIRECTORY "OpenRAMAN/acetonitrile_n_n_n_solid_10000_0_5.csv")
            (joinPath DATA_DIRECTORY "OpenRAMAN/neon_n_n_n_solid_10000_0_5.csv")
            (joinPath DATA_DIRECTORY "OpenRAMAN/acetonitrile_n_n_n_solid_10000_0_5.csv"),
          ⟨"openraman", 532⟩),
         (RamanSpectrum.from_generic_csvfile
            (joinPath DATA_DIRECTORY "Wasatch_WP532X/acetonitrile.csv"),
          ⟨"wasatch", 532⟩) ]) ∧
    (∀ (env : Env) (spectra : List RamanSpectrum) (rows : List InstRow),
       load_cc124_tap_spectra env = some (spectra, rows) →
       rows.length = spectra.length ∧
       spectra.zip rows =
         [ (RamanSpectrum.from_horiba_txtfile
              (joinPath DATA_DIRECTORY "Horiba_MacroRAM/CC-124-TAP-2.txt"),
            ⟨"horiba", 785⟩),
           (RamanSpectrum.mk
              (env.read_renishaw_multipoint_txt
                (joinPath DATA_DIRECTORY "Renishaw_Qontor/CC-124_TAP_plate_5x_3_points.txt")).1
              ((env.read_renishaw_multipoint_txt
                (joinPath DATA_DIRECTORY "Renishaw_Qontor/CC-124_TAP_plate_5x_3_points.txt")).2.1.headD []),
            ⟨"renishaw", 785⟩),
           (RamanSpectrum.from_wasatch_csvfile
              (joinPath DATA_DIRECTORY "Wasatch_WP785X/CC-124_TAP_WP-02071.csv"),
            ⟨"wasatch", 785⟩),
           (RamanSpectrum.from_openraman_csvfiles
              (joinPath DATA_DIRECTORY "OpenRAMAN/CC-124_TAP_Pos-2-000_002.csv")
              (joinPath DATA_DIRECTORY "OpenRAMAN/neon_n_n_n_solid_10000_0_5.csv")
              (joinPath DATA_DIRECTORY "OpenRAMAN/acetonitrile_n_n_n_solid_10000_0_5.csv"),
            ⟨"openraman", 532⟩),
           (RamanSpectrum.from_generic_csvfile
              (joinPath DATA_DIRECTORY "Wasatch_WP532X/CC-124_TAP_Pos-4-002_001.csv"),
            ⟨"wasatch", 532⟩) ]) ∧
    (∀ walk : List (String × List String),
       (load_chlamy_spectra walk).2.length = (load_chlamy_spectra walk).1.length ∧
       ∀ (i : Nat) (e : ChlamyEntry), (chlamyEntries walk)[i]? = some e →
         (load_chlamy_spectra walk).1[i]? =
           some (RamanSpectrum.from_generic_csvfile e.path) ∧
         (load_chlamy_spectra walk).2[i]? = some ⟨"wasatch", 785, e.well, e.site⟩) := by
  refine ⟨⟨rfl, rfl⟩, ?_, ?_⟩
  · intro env spectra rows h
    simp only [load_cc124_tap_spectra] at h
    cases hm : (env.read_renishaw_multipoint_txt
        (joinPath DATA_DIRECTORY "Renishaw_Qontor/CC-124_TAP_plate_5x_3_points.txt")).2.1 with
    | nil => rw [hm] at h; exact absurd h (by simp)
    | cons row0 rest =>
      rw [hm] at h
      simp only [Option.some.injEq, Prod.mk.injEq] at h
      obtain ⟨hsp, hrows⟩ := h
      subst hsp
      subst hrows
      exact ⟨rfl, rfl⟩
  · intro walk
    rw [load_chlamy_spectra_eq]
    refine ⟨by simp, ?_⟩
    intro i e he
    constructor <;> simp [he]

theorem c1_witness :
    load_cc124_tap_spectra ⟨fun _ => ([10], ([[1, 2], [3, 4]], [7]))⟩ =
      some ([ RamanSpectrum.from_horiba_txtfile
                (joinPath DATA_DIRECTORY "Horiba_MacroRAM/CC-124-TAP-2.txt"),
              RamanSpectrum.mk [10] [1, 2],
              RamanSpectrum.from_wasatch_csvfile
                (joinPath DATA_DIRECTORY "Wasatch_WP785X/CC-124_TAP_WP-02071.csv"),
              RamanSpectrum.from_openraman_csvfiles
                (joinPath DATA_DIRECTORY "OpenRAMAN/CC-124_TAP_Pos-2-000_002.csv")
                (joinPath DATA_DIRECTORY "OpenRAMAN/neon_n_n_n_solid_10000_0_5.csv")
                (joinPath DATA_DIRECTORY "OpenRAMAN/acetonitrile_n_n_n_solid_10000_0_5.csv"),
              RamanSpectrum.from_generic_csvfile
                (joinPath DATA_DIRECTORY "Wasatch_WP532X/CC-124_TAP_Pos-4-002_001.csv") ],
            [⟨"horiba", 785⟩, ⟨"renishaw", 785⟩, ⟨"wasatch", 785⟩,
             ⟨"openraman", 532⟩, ⟨"wasatch", 532⟩]) ∧
    ([⟨"horiba", 785⟩, ⟨"renishaw", 785⟩, ⟨"wasatch", 785⟩,
      ⟨"openraman", 532⟩, ⟨"wasatch", 532⟩] : List InstRow).length = 5 ∧
    (chlamyEntries [("d", ["A1-Site_3.csv"])])[0]? =
      some ⟨joinPath "d" "A1-Site_3.csv", "A1", "3"⟩ ∧
    (load_chlamy_spectra [("d", ["A1-Site_3.csv"])]).1[0]? =
      some (RamanSpectrum.from_generic_csvfile (joinPath "d" "A1-Site_3.csv")) ∧
    (load_chlamy_spectra [("d", ["A1-Site_3.csv"])]).2[0]? =
      some ⟨"wasatch", 785, "A1", "3"⟩ := by
  have hcc := c1_parallel_tables.2.1 ⟨fun _ => ([10], ([[1, 2], [3, 4]], [7]))⟩ _ _ rfl
  have hent : (chlamyEntries [("d", ["A1-Site_3.csv"])])[0]? =
      some ⟨joinPath "d" "A1-Site_3.csv", "A1", "3"⟩ := by decide
  have hch := (c1_parallel_tables.2.2 [("d", ["A1-Site_3.csv"])]).2 0
    ⟨joinPath "d" "A1-Site_3.csv", "A1", "3"⟩ hent
  exact ⟨rfl, hcc.1, hent, hch.1, hch.2⟩

/-- C2: a file of the walked tree is loaded as a spectrum, and contributes a
table row, iff its basename matches the regular expression
`^([A-H](?:[1-9]|1[0-2]))-Site_(\d+)\.csv$`; every other file is skipped.  The
loaded spectra/rows are exactly the regex-matched files of the walk in order
(the `fnmatch` pre-filter excludes nothing the regex accepts), and the regex
accepts precisely the basenames of the form `<well>-Site_<digits>.csv` with
`<well>` a letter `A`-`H` followed by a number 1-12. -/
theorem c2_regex_decides_loading (walk : List (String × List String)) :
    (load_chlamy_spectra walk).1 =
      ((walkFiles walk).filterMap entryOf).map
        (fun e => RamanSpectrum.from_generic_csvfile e.path) ∧
    (load_chlamy_spectra walk).2 =
      ((walkFiles walk).filterMap entryOf).map
        (fun e => ChlamyRow.mk "wasatch" 785 e.well e.site) ∧
    (∀ (s w t : String),
       parseChlamyFilename s = some (w, t) ↔
         (s.data = w.data ++ ("-Site_".data ++ (t.data ++ ".csv".data)) ∧
          wellOk w.data = true ∧ t.data ≠ [] ∧ t.data.all Char.isDigit = true)) := by
  refine ⟨?_, ?_, ?_⟩
  · rw [load_chlamy_spectra_eq]; rfl
  · rw [load_chlamy_spectra_eq]; rfl
  · intro s w t
    constructor
    · exact parse_sound s w t
    · rintro ⟨hdec, hw, ht, hdig⟩
      have hs : s = ⟨w.data ++ ("-Site_".data ++ (t.data ++ ".csv".data))⟩ :=
        congrArg String.mk hdec
      rw [hs]
      exact parse_complete w.data t.data hw ht hdig

theorem c2_witness :
    ("A1-Site_3.csv".data =
       "A1".data ++ ("-Site_".data ++ ("3".data ++ ".csv".data)) ∧
     wellOk "A1".data = true ∧ "3".data ≠ [] ∧ "3".data.all Char.isDigit = true) ∧
    parseChlamyFilename "A1-Site_3.csv" = some ("A1", "3") :=
  ⟨by decide,
   ((c2_regex_decides_loading [("d", ["A1-Site_3.csv"])]).2.2
     "A1-Site_3.csv" "A1" "3").mpr (by decide)⟩

/-- C10: every row of the `load_chlamy_spectra` table has instrument
`"wasatch"` and `λ_nm = 785`, and its `well_ID` and `site` are exactly the two
string captures of the filename regex for some walked file (`site` stays a
string: the `ChlamyRow.site` column has type `String`, never an integer). -/
theorem c10_chlamy_row_fields (walk : List (String × List String)) (r : ChlamyRow)
    (hr : r ∈ (load_chlamy_spectra walk).2) :
    r.instrument = "wasatch" ∧ r.lambda_nm = 785 ∧
    ∃ p ∈ walkFiles walk, parseChlamyFilename p.2 = some (r.well_ID, r.site) := by
  rw [load_chlamy_spectra_eq] at hr
  simp only [List.mem_map] at hr
  obtain ⟨e, he, hre⟩ := hr
  subst hre
  refine ⟨rfl, rfl, ?_⟩
  unfold chlamyEntries at he
  simp only [List.mem_filterMap] at he
  obtain ⟨p, hp, hpe⟩ := he
  refine ⟨p, hp, ?_⟩
  unfold entryOf at hpe
  cases hps : parseChlamyFilename p.2 with
  | none => rw [hps] at hpe; exact absurd hpe (by simp)
  | some ws =>
    rw [hps] at hpe
    simp only [Option.map_some', Option.some.injEq] at hpe
    subst hpe
    rfl

theorem c10_witness :
    (⟨"wasatch", 785, "A1", "3"⟩ : ChlamyRow) ∈
      (load_chlamy_spectra [("d", ["A1-Site_3.csv"])]).2 ∧
    ((⟨"wasatch", 785, "A1", "3"⟩ : ChlamyRow).instrument = "wasatch" ∧
     (⟨"wasatch", 785, "A1", "3"⟩ : ChlamyRow).lambda_nm = 785 ∧
     ∃ p ∈ walkFiles [("d", ["A1-Site_3.csv"])],
       parseChlamyFilename p.2 = some ("A1", "3")) := by
  have hm : (⟨"wasatch", 785, "A1", "3"⟩ : ChlamyRow) ∈
      (load_chlamy_spectra [("d", ["A1-Site_3.csv"])]).2 := by
    rw [load_chlamy_spectra_eq]
    decide
  exact ⟨hm, c10_chlamy_row_fields [("d", ["A1-Site_3.csv"])] _ hm⟩

theorem c7_witness :
    TmpFS.WF ⟨[], 0⟩ ∧
    tarContentsOf [("a", [1]), ("b", [2])] ["a", "b"] = some [[1], [2]] ∧
    (tar_wrapper_single (α := Unit) (K := Unit) [("a", [1])] "a"
        (fun _ _ _ => Except.error (PyErr.userError 3)) () ⟨[], 0⟩).2.files = [] ∧
    (tar_wrapper_multiple (α := Unit) (K := Unit) [("a", [1]), ("b", [2])] ["a", "b"]
        (fun _ _ _ => Except.error (PyErr.userError 3)) () ⟨[], 0⟩).2.files = [] :=
  ⟨fun p hp => absurd hp (List.not_mem_nil p), by decide,
   c7_no_temp_leak.1 [("a", [1])] "a"
     (fun _ _ _ => Except.error (PyErr.userError 3)) () ⟨[], 0⟩
     (fun p hp => absurd hp (List.not_mem_nil p)),
   c7_no_temp_leak.2 [("a", [1]), ("b", [2])] ["a", "b"] [[1], [2]]
     (fun _ _ _ => Except.error (PyErr.userError 3)) () ⟨[], 0⟩
     (fun p hp => absurd hp (List.not_mem_nil p)) (by decide)⟩

end LoadSpectra
